import Mathlib

/-!
# Verification of the Canvas grades-page extraction engine

A shallow embedding, in Lean 4, of the extraction and normalization engine of
the `canvas-parent` repository:

* `scrappers/assignment_scraper.py` — date normalizer, status classifier,
  score parser, per-row record extraction;
* `scrappers/grade_scraper.py` — weighted grade calculator and letter-grade
  mapping;
* `frontend/page_generator.py` — presentation formatter `_format_score`.

Python floats are modelled as exact rationals (`ℚ`), machine strings as
`String` / `List Char`, Python `None` as `Option`, and exceptions as
`Except PyErr`.  Calls into the external `dateutil` library are modelled by
an oracle record (`Oracles`), quantified over in the theorems.  HTML-derived
inputs (BeautifulSoup queries) are modelled as structures holding exactly the
fields the source reads from each tag.
-/

/-! ## Python character and string primitives -/

/-- The characters Python's `str.strip()` removes (ASCII whitespace:
space, tab, newline, carriage return, vertical tab, form feed). -/
def isPySpace (c : Char) : Bool :=
  c = ' ' || c = '\t' || c = '\n' || c = '\r' || c = '\x0b' || c = '\x0c'

/-- Word characters of the regex class `\w` (ASCII range). -/
def isWordChar (c : Char) : Bool :=
  c.isAlpha || c.isDigit || c = '_'

/-- `str.strip()` on a character list: drop leading and trailing whitespace. -/
def pyStripList (l : List Char) : List Char :=
  ((l.dropWhile isPySpace).reverse.dropWhile isPySpace).reverse

/-- `str.strip()` on a `String`. -/
def pyStrip (s : String) : String :=
  String.mk (pyStripList s.data)

/-- `str.strip(chars)`: drop leading and trailing characters from `chars`. -/
def pyStripCharsList (chars : List Char) (l : List Char) : List Char :=
  ((l.dropWhile (chars.contains ·)).reverse.dropWhile (chars.contains ·)).reverse

/-- `str.lower()` on a character list (ASCII). -/
def lowerList (l : List Char) : List Char :=
  l.map Char.toLower

/-- Does `pat` occur as a prefix of `l`? -/
def isPrefixList : List Char → List Char → Bool
  | [], _ => true
  | _ :: _, [] => false
  | p :: ps, c :: cs => p = c && isPrefixList ps cs

/-- Does `pat` occur anywhere inside `l`?  (Python's `pat in s`.) -/
def containsList (pat : List Char) : List Char → Bool
  | [] => isPrefixList pat []
  | c :: cs => isPrefixList pat (c :: cs) || containsList pat cs

/-- Fuel-driven worker for `replaceAllList`; every step consumes at least
one character, so fuel equal to the list length always suffices. -/
def replaceAllAux (pat repl : List Char) : Nat → List Char → List Char
  | _, [] => []
  | 0, l => l
  | fuel + 1, c :: cs =>
    if pat ≠ [] ∧ isPrefixList pat (c :: cs) then
      repl ++ replaceAllAux pat repl fuel (cs.drop (pat.length - 1))
    else
      c :: replaceAllAux pat repl fuel cs

/-- Python `s.replace(pat, repl)` with nonempty `pat`: replace every
non-overlapping occurrence, scanning left to right. -/
def replaceAllList (pat repl : List Char) (l : List Char) : List Char :=
  replaceAllAux pat repl l.length l

/-- Python `s.replace(pat, repl)` on `String`s. -/
def pyReplaceStr (s pat repl : String) : String :=
  String.mk (replaceAllList pat.data repl.data s.data)

/-- `s.startswith(pat)` on `String`s. -/
def pyStartsWith (s pat : String) : Bool :=
  isPrefixList pat.data s.data

/-- Substring containment on `String`s (Python's `pat in s`). -/
def pyContainsStr (s pat : String) : Bool :=
  containsList pat.data s.data

/-! ## Dates, datetimes and Python errors -/

/-- A calendar date, as produced by `datetime(year, month, day)` at
midnight.  All dates the engine builds are date-only (midnight), so
`datetime` comparison against `datetime.now()` reduces to strict
lexicographic comparison of the calendar dates (a midnight timestamp is
greater than `now` exactly when its date is strictly after today). -/
structure SDate where
  y : Int
  m : Nat
  d : Nat
deriving DecidableEq, Repr

/-- Strict lexicographic order on dates: `a < b`. -/
def dateLtB (a b : SDate) : Bool :=
  a.y < b.y || (a.y = b.y && (a.m < b.m || (a.m = b.m && a.d < b.d)))

/-- Gregorian leap year, as `calendar`/`datetime` define it. -/
def isLeapYear (y : Int) : Bool :=
  y % 4 = 0 && (y % 100 ≠ 0 || y % 400 = 0)

/-- Days in a month, matching `datetime`'s validation. -/
def daysInMonth (y : Int) (m : Nat) : Nat :=
  if m = 2 then (if isLeapYear y then 29 else 28)
  else if m = 4 ∨ m = 6 ∨ m = 9 ∨ m = 11 then 30
  else 31

/-- `datetime(year, month, day)`: `some` on valid components,
`none` when the constructor would raise `ValueError`
(year outside `[MINYEAR, MAXYEAR] = [1, 9999]`, month outside `[1, 12]`,
day outside the month's range). -/
def mkPyDate (y : Int) (m d : Nat) : Option SDate :=
  if 1 ≤ y ∧ y ≤ 9999 ∧ 1 ≤ m ∧ m ≤ 12 ∧ 1 ≤ d ∧ d ≤ daysInMonth y m then
    some ⟨y, m, d⟩
  else
    none

/-- Python exception classes relevant to the embedded code. -/
inductive PyErr where
  | valueError
  | typeError
  | attributeError
  | keyError
  | otherError
deriving DecidableEq, Repr

/-- Decidable equality for `Except` results, used to evaluate the model on
concrete inputs. -/
instance {e a : Type} [DecidableEq e] [DecidableEq a] : DecidableEq (Except e a)
  | Except.ok x, Except.ok y =>
    if h : x = y then isTrue (by rw [h])
    else isFalse (by intro hc; injection hc; contradiction)
  | Except.ok _, Except.error _ => isFalse (by intro hc; injection hc)
  | Except.error _, Except.ok _ => isFalse (by intro hc; injection hc)
  | Except.error x, Except.error y =>
    if h : x = y then isTrue (by rw [h])
    else isFalse (by intro hc; injection hc; contradiction)

/-- External-library oracle: the behaviour of `dateutil.parser.parse`.
`duParse s defaultYear` models `dateutil_parser.parse(s,
default=datetime(defaultYear, 1, 1))` (only the date components of the
result are consumed); `isoParse s` models `dateutil_parser.parse(s)` on an
ISO timestamp string.  A result of `.error e` models the call raising
exception `e`. -/
structure Oracles where
  duParse : String → Int → Except PyErr SDate
  isoParse : String → Except PyErr SDate

/-! ## Date normalizer: text cleaning (`_parse_date_with_dateutil` /
`_parse_date_with_regex`, lines 106-113 and 150-157)

The five `re.sub(..., '', date_str)` calls all have the shape
`PREFIX.*$`: the first position where `PREFIX` matches begins a match that
consumes the remainder of the string, so the substitution truncates the
string at that position.  (The model assumes the input has no embedded
newline, where Python's `.`/`$` would behave differently; grades-page cell
texts are single-line.) -/

/-- Drop a case-sensitive literal prefix, returning the remainder. -/
def dropLitCS : List Char → List Char → Option (List Char)
  | [], cs => some cs
  | _ :: _, [] => none
  | p :: ps, c :: cs => if c = p then dropLitCS ps cs else none

/-- Drop a case-insensitive literal prefix, returning the remainder. -/
def dropLitCI : List Char → List Char → Option (List Char)
  | [], cs => some cs
  | _ :: _, [] => none
  | p :: ps, c :: cs => if c.toLower = p.toLower then dropLitCI ps cs else none

/-- Truncate at the first position where `p` begins to match
(`re.sub(PAT ++ ".*$", '', s)` for a single-line `s`). -/
def truncAtFirst (p : List Char → Bool) : List Char → List Char
  | [] => []
  | c :: cs => if p (c :: cs) then [] else c :: truncAtFirst p cs

/-- A match of `\s+at\s+` begins here. -/
def subAtPat (cs : List Char) : Bool :=
  cs.takeWhile isPySpace ≠ [] &&
    (match dropLitCS "at".data (cs.dropWhile isPySpace) with
     | some rest => rest.takeWhile isPySpace ≠ []
     | none => false)

/-- A match of `\s+by\s+` begins here. -/
def subByPat (cs : List Char) : Bool :=
  cs.takeWhile isPySpace ≠ [] &&
    (match dropLitCS "by".data (cs.dropWhile isPySpace) with
     | some rest => rest.takeWhile isPySpace ≠ []
     | none => false)

/-- `:dd` (used by the `\d{1,2}:\d{2}` matcher). -/
def timeTail : List Char → Bool
  | c :: d3 :: d4 :: _ => c = ':' && d3.isDigit && d4.isDigit
  | _ => false

/-- A match of `\d{1,2}:\d{2}` begins here. -/
def timePat : List Char → Bool
  | d1 :: rest =>
    d1.isDigit &&
      (timeTail rest ||
        (match rest with
         | d2 :: rest2 => d2.isDigit && timeTail rest2
         | [] => false))
  | [] => false

/-- A match of `\s+(am|pm)` (IGNORECASE) begins here. -/
def amPmPat (cs : List Char) : Bool :=
  cs.takeWhile isPySpace ≠ [] &&
    (let rest := cs.dropWhile isPySpace
     (dropLitCI "am".data rest).isSome || (dropLitCI "pm".data rest).isSome)

/-- A match of `\s+(midnight|noon|end of day)` (IGNORECASE) begins here. -/
def timeKeywordPat (cs : List Char) : Bool :=
  cs.takeWhile isPySpace ≠ [] &&
    (let rest := cs.dropWhile isPySpace
     (dropLitCI "midnight".data rest).isSome ||
       (dropLitCI "noon".data rest).isSome ||
       (dropLitCI "end of day".data rest).isSome)

/-- The shared cleanup block of `_parse_date_with_dateutil` and
`_parse_date_with_regex` (lines 106-113 / 150-157): strip
`"Due: "`/`"Due "`, truncate trailing time phrases, then `strip()`. -/
def cleanDateList (l : List Char) : List Char :=
  pyStripList
    (truncAtFirst timeKeywordPat
      (truncAtFirst amPmPat
        (truncAtFirst timePat
          (truncAtFirst subByPat
            (truncAtFirst subAtPat
              (replaceAllList "Due ".data []
                (replaceAllList "Due: ".data [] l)))))))

/-- The explicit "No Due Date" indicator set (line 116). -/
def noDateIndicators : List (List Char) :=
  ["No Due Date", "TBD", "N/A", "-", "No due date",
   "no due date", "tbd", "n/a", "None", "none"].map String.data

/-- A match of the first validation alternative `(\w+)\s+\d+` begins here
(one digit suffices for `\d+`). -/
def wsdAt (cs : List Char) : Bool :=
  cs.takeWhile isWordChar ≠ [] &&
    (let r1 := cs.dropWhile isWordChar
     r1.takeWhile isPySpace ≠ [] &&
       (match r1.dropWhile isPySpace with
        | d :: _ => d.isDigit
        | [] => false))

/-- A match of the second validation alternative — digits, a separator among dash, slash, dot, digits — begins
here. -/
def dsdAt (cs : List Char) : Bool :=
  match cs with
  | d :: _ =>
    d.isDigit &&
      (match cs.dropWhile Char.isDigit with
       | sep :: d2 :: _ => (sep = '-' || sep = '/' || sep = '.') && d2.isDigit
       | _ => false)
  | [] => false

/-- Does `p` begin to match at any position (`re.search`)? -/
def scanHasMatch (p : List Char → Bool) : List Char → Bool
  | [] => false
  | c :: cs => p (c :: cs) || scanHasMatch p cs

/-- The basic validation of `_parse_date_with_dateutil` (line 124):
`re.search` of the two-alternative date-shape pattern on `date_str` is truthy. -/
def validationSearch (l : List Char) : Bool :=
  scanHasMatch (fun cs => wsdAt cs || dsdAt cs) l

/-- Three-letter month tokens of the "meaningful date components" check
(line 135). -/
def monthAbbrevs : List (List Char) :=
  ["jan", "feb", "mar", "apr", "may", "jun",
   "jul", "aug", "sep", "oct", "nov", "dec"].map String.data

/-- `re.search(r'(jan|feb|...|dec|\d{1,2})', date_str.lower())` is truthy:
some month token occurs, or some digit occurs. -/
def hasMeaningfulDateComponent (l : List Char) : Bool :=
  monthAbbrevs.any (fun p => containsList p l) || l.any Char.isDigit

/-- `_parse_date_with_dateutil` (lines 101-142).  The `try` block catches
`(ValueError, TypeError)`; any other exception from the external parser
propagates. -/
def parseDateWithDateutil (o : Oracles) (nowYear : Int) (s : String) :
    Except PyErr (Option SDate) :=
  if s = "" then Except.ok none
  else
    let cl := cleanDateList s.data
    if noDateIndicators.contains (pyStripList cl) then Except.ok none
    else if ¬ validationSearch cl then Except.ok none
    else
      match o.duParse (String.mk cl) nowYear with
      | Except.error e =>
        if e = PyErr.valueError ∨ e = PyErr.typeError then Except.ok none
        else Except.error e
      | Except.ok pd =>
        if pd.y = nowYear ∧ pd.m = 1 ∧ pd.d = 1 ∧
            ¬ hasMeaningfulDateComponent (lowerList cl) then
          Except.ok none
        else
          -- `datetime(parsed_date.year, parsed_date.month, parsed_date.day)`;
          -- an invalid combination would raise ValueError, caught → None.
          Except.ok (mkPyDate pd.y pd.m pd.d)

/-! ## Date normalizer: regex fallback (`_parse_date_with_regex`,
lines 144-194) -/

/-- Value of a digit string (`int` on a string of decimal digits). -/
def natOfDigits (l : List Char) : Nat :=
  l.foldl (fun n c => n * 10 + (c.toNat - 48)) 0

/-- Return the first position (scanning left to right, as `re.search`
does) where the positional matcher `f` succeeds. -/
def scanFirstOpt {α : Type} (f : List Char → Option α) : List Char → Option α
  | [] => none
  | c :: cs =>
    match f (c :: cs) with
    | some r => some r
    | none => scanFirstOpt f cs

/-- Tail of the numeric date pattern after month and day: a separator
among dash, slash, dot followed by exactly four digits. -/
def numYearTail (mo day : Nat) : List Char → Option (Nat × Nat × Nat)
  | sep :: d1 :: d2 :: d3 :: d4 :: _ =>
    if (sep = '.' || sep = '-' || sep = '/') &&
        d1.isDigit && d2.isDigit && d3.isDigit && d4.isDigit then
      some (mo, day, natOfDigits [d1, d2, d3, d4])
    else none
  | _ => none

/-- Tail of the numeric date pattern after the month group: separator,
then a greedy one-or-two-digit day (two digits preferred, with
backtracking), then the year tail. -/
def numDayTail (mo : Nat) : List Char → Option (Nat × Nat × Nat)
  | sep :: rest =>
    if sep = '.' || sep = '-' || sep = '/' then
      match rest with
      | d1 :: rest1 =>
        if d1.isDigit then
          match
            (match rest1 with
             | d2 :: rest2 =>
               if d2.isDigit then numYearTail mo (natOfDigits [d1, d2]) rest2
               else none
             | [] => none) with
          | some r => some r
          | none => numYearTail mo (natOfDigits [d1]) rest1
        else none
      | [] => none
    else none
  | [] => none

/-- A match of the numeric pattern `(\d{1,2})[separator](\d{1,2})[separator](\d{4})`
beginning at this position; captures `(month, day, year)`.  The leading
`\d{1,2}` is greedy (two digits preferred) with backtracking. -/
def numAt : List Char → Option (Nat × Nat × Nat)
  | d1 :: rest =>
    if d1.isDigit then
      match
        (match rest with
         | d2 :: rest2 =>
           if d2.isDigit then numDayTail (natOfDigits [d1, d2]) rest2
           else none
         | [] => none) with
      | some r => some r
      | none => numDayTail (natOfDigits [d1]) rest
    else none
  | [] => none

/-- Greedy optional ordinal suffix `(?:st|nd|rd|th)?` (IGNORECASE). -/
def dropOrdinal (cs : List Char) : List Char :=
  match cs with
  | a :: b :: rest =>
    if (a.toLower = 's' && b.toLower = 't') ||
        (a.toLower = 'n' && b.toLower = 'd') ||
        (a.toLower = 'r' && b.toLower = 'd') ||
        (a.toLower = 't' && b.toLower = 'h') then rest
    else cs
  | _ => cs

/-- Optional year group `(?:\s*,?\s*(\d{4}))?`: optional spaces, optional
comma, optional spaces, then four digits; `none` when the group matches
empty (no year captured). -/
def yearAt (cs : List Char) : Option (List Char) :=
  let r1 := cs.dropWhile isPySpace
  let r2 := match r1 with
    | ',' :: t => t
    | _ => r1
  match r2.dropWhile isPySpace with
  | d1 :: d2 :: d3 :: d4 :: _ =>
    if d1.isDigit && d2.isDigit && d3.isDigit && d4.isDigit then
      some [d1, d2, d3, d4]
    else none
  | _ => none

/-- A match of the text pattern
`(\w+)\s+(\d{1,2})(?:st|nd|rd|th)?(?:\s*,?\s*(\d{4}))?` beginning at this
position; captures `(month word, day digits, optional year digits)`.
`\w+` and `\s+` are maximal runs (word characters and whitespace are
disjoint, so no backtracking arises); the day takes two digits when it
can. -/
def textAt (cs : List Char) :
    Option (List Char × List Char × Option (List Char)) :=
  if cs.takeWhile isWordChar = [] then none
  else
    let r1 := cs.dropWhile isWordChar
    if r1.takeWhile isPySpace = [] then none
    else
      match r1.dropWhile isPySpace with
      | d1 :: rest =>
        if d1.isDigit then
          let p : List Char × List Char :=
            match rest with
            | d2 :: rest2 => if d2.isDigit then ([d1, d2], rest2) else ([d1], rest)
            | [] => ([d1], [])
          some (cs.takeWhile isWordChar, p.1, yearAt (dropOrdinal p.2))
        else none
      | [] => none

/-- The month-name table of `_parse_date_with_regex` (lines 177-182). -/
def monthMap (w : List Char) : Option Nat :=
  (([("jan", 1), ("january", 1), ("feb", 2), ("february", 2),
     ("mar", 3), ("march", 3), ("apr", 4), ("april", 4), ("may", 5),
     ("jun", 6), ("june", 6), ("jul", 7), ("july", 7),
     ("aug", 8), ("august", 8), ("sep", 9), ("september", 9), ("sept", 9),
     ("oct", 10), ("october", 10), ("nov", 11), ("november", 11),
     ("dec", 12), ("december", 12)] : List (String × Nat)).find?
    (fun p => p.1.data = w)).map (·.2)

/-- `_parse_date_with_regex` (lines 144-194).  Everything in the body is
wrapped in `try ... except (ValueError, TypeError)`; the only raiser is
the `datetime` constructor, modelled by `mkPyDate` returning `none`. -/
def parseDateWithRegex (nowYear : Int) (s : String) : Option SDate :=
  if s = "" then none
  else
    let cl := cleanDateList s.data
    match scanFirstOpt numAt cl with
    | some (mo, d, y) => mkPyDate (Int.ofNat y) mo d
    | none =>
      match scanFirstOpt textAt cl with
      | none => none
      | some (w, dayDigits, yearDigits) =>
        match monthMap (lowerList w) with
        | none => none
        | some mo =>
          let year : Int :=
            match yearDigits with
            | some ys => Int.ofNat (natOfDigits ys)
            | none => nowYear
          mkPyDate year mo (natOfDigits dayDigits)

/-! ## Structured-blob lookup (`_extract_structured_date` and helpers,
lines 17-99)

The ENV blob is the result of `json.loads`, so its shape is dynamic.  It
is modelled by `PyVal`, and each attribute access / subscript / iteration
carries the exception Python would raise on an unexpected shape. -/

/-- A parsed JSON value (numeric leaves restricted to integers, which is
all the claims exercise). -/
inductive PyVal where
  | null
  | bool (b : Bool)
  | num (n : Int)
  | str (s : String)
  | list (elems : List PyVal)
  | dict (entries : List (String × PyVal))

/-- Python truthiness of a value. -/
def pyTruthy : PyVal → Bool
  | .null => false
  | .bool b => b
  | .num n => n ≠ 0
  | .str s => s ≠ ""
  | .list elems => !elems.isEmpty
  | .dict entries => !entries.isEmpty

/-- `v.get(key, dflt)`: dictionary lookup with default; any non-dict
receiver raises `AttributeError` (no `.get` attribute).  `json.loads`
produces dicts with distinct keys, so `find?` is the lookup. -/
def pyGetDefault (v : PyVal) (key : String) (dflt : PyVal) :
    Except PyErr PyVal :=
  match v with
  | .dict entries => Except.ok (((entries.find? (·.1 = key)).map (·.2)).getD dflt)
  | _ => Except.error PyErr.attributeError

/-- `v.get(key)` (default `None`). -/
def pyGet (v : PyVal) (key : String) : Except PyErr PyVal :=
  pyGetDefault v key PyVal.null

/-- Iterating a value (`for x in v`): lists yield elements, strings yield
one-character strings, dicts yield their keys; other values raise
`TypeError`. -/
def pyIter : PyVal → Except PyErr (List PyVal)
  | .list elems => Except.ok elems
  | .str s => Except.ok (s.data.map (fun c => PyVal.str (String.mk [c])))
  | .dict entries => Except.ok (entries.map (fun e => PyVal.str e.1))
  | _ => Except.error PyErr.typeError

/-- `key in v` for a string key: dicts test key membership, lists test
element equality (a non-string element never equals a string), strings
test substring containment; other receivers raise `TypeError`. -/
def pyContainsKey (key : String) : PyVal → Except PyErr Bool
  | .dict entries => Except.ok (entries.any (·.1 = key))
  | .list elems =>
    -- `==` against a string: only an equal string compares equal.
    Except.ok (elems.any (fun e =>
      match e with
      | .str s => s = key
      | _ => false))
  | .str s => Except.ok (pyContainsStr s key)
  | _ => Except.error PyErr.typeError

/-- `v[key]` for a string key: dict subscript (`KeyError` when absent);
list/string subscripts require integer indices, so a string key raises
`TypeError`; other receivers raise `TypeError`. -/
def pySubscript (v : PyVal) (key : String) : Except PyErr PyVal :=
  match v with
  | .dict entries =>
    match entries.find? (·.1 = key) with
    | some e => Except.ok e.2
    | none => Except.error PyErr.keyError
  | _ => Except.error PyErr.typeError

/-- `v.values()`: dict values; any other receiver raises
`AttributeError`. -/
def pyValues : PyVal → Except PyErr (List PyVal)
  | .dict entries => Except.ok (entries.map (·.2))
  | _ => Except.error PyErr.attributeError

/-- `str(v)` for the scalar shapes the lookup compares against an
assignment-id string (containers never compare equal to an id, and their
`repr`-style rendering is abbreviated). -/
def pyStr : PyVal → String
  | .null => "None"
  | .bool b => if b then "True" else "False"
  | .num n => toString n
  | .str s => s
  | .list _ => "[...]"
  | .dict _ => "\x7b...\x7d"

/-- `_parse_iso_date_to_datetime` (lines 93-99): parse an ISO timestamp
and truncate to midnight; `except (ValueError, TypeError)` yields `None`.
A non-string argument makes `dateutil` raise `TypeError`, which is
caught. -/
def parseIsoDate (o : Oracles) (v : PyVal) : Except PyErr (Option SDate) :=
  match v with
  | .str s =>
    match o.isoParse s with
    | Except.ok d => Except.ok (mkPyDate d.y d.m d.d)
    | Except.error e =>
      if e = PyErr.valueError ∨ e = PyErr.typeError then Except.ok none
      else Except.error e
  | _ => Except.ok none

/-- Inner loop of `_find_due_date_in_assignment_groups` over one group's
assignments (lines 70-75). -/
def findDueInAssignments (o : Oracles) (aid : String) :
    List PyVal → Except PyErr (Option SDate)
  | [] => Except.ok none
  | a :: rest => do
    let idV ← pyGet a "id"
    if pyStr idV = aid then do
      let dueAt ← pyGet a "due_at"
      if pyTruthy dueAt then parseIsoDate o dueAt
      else findDueInAssignments o aid rest
    else findDueInAssignments o aid rest

/-- Outer loop of `_find_due_date_in_assignment_groups` (lines 65-76). -/
def findDueInGroups (o : Oracles) (aid : String) :
    List PyVal → Except PyErr (Option SDate)
  | [] => Except.ok none
  | g :: rest => do
    let assignmentsV ← pyGetDefault g "assignments" (PyVal.list [])
    let items ← pyIter assignmentsV
    let r ← findDueInAssignments o aid items
    match r with
    | some d => Except.ok (some d)
    | none => findDueInGroups o aid rest

/-- `_find_due_date_in_assignment_groups` (lines 65-76). -/
def findDueDateInAssignmentGroups (o : Oracles) (env : PyVal)
    (aid : String) : Except PyErr (Option SDate) := do
  let groupsV ← pyGetDefault env "assignment_groups" (PyVal.list [])
  let groups ← pyIter groupsV
  findDueInGroups o aid groups

/-- Loop of `_find_due_date_in_effective_dates` over the student-keyed
entries (lines 86-91): first truthy `due_at` wins. -/
def findDueInStudentEntries (o : Oracles) :
    List PyVal → Except PyErr (Option SDate)
  | [] => Except.ok none
  | sd :: rest => do
    let dueAt ← pyGet sd "due_at"
    if pyTruthy dueAt then parseIsoDate o dueAt
    else findDueInStudentEntries o rest

/-- `_find_due_date_in_effective_dates` (lines 78-91). -/
def findDueDateInEffectiveDates (o : Oracles) (env : PyVal)
    (aid : String) : Except PyErr (Option SDate) := do
  let ed ← pyGetDefault env "effective_due_dates" (PyVal.dict [])
  let present ← pyContainsKey aid ed
  if ¬ present then Except.ok none
  else do
    let entry ← pySubscript ed aid
    let vals ← pyValues entry
    findDueInStudentEntries o vals

/-- `_extract_structured_date` (lines 17-32): `none` when no blob or a
falsy assignment id; otherwise the group lookup, falling back to the
effective-due-dates mapping. -/
def extractStructuredDate (o : Oracles) (env : Option PyVal)
    (aid : String) : Except PyErr (Option SDate) :=
  if aid = "" then Except.ok none
  else
    match env with
    | none => Except.ok none
    | some e => do
      let r ← findDueDateInAssignmentGroups o e aid
      match r with
      | some d => Except.ok (some d)
      | none => findDueDateInEffectiveDates o e aid

/-- `_parse_date` (lines 196-217): structured lookup (only with a truthy
assignment id), then the flexible text parse, then the regex fallback.
`env` is the memoized result of `_get_env_data` for the page. -/
def parseDate (o : Oracles) (nowYear : Int) (env : Option PyVal)
    (s : String) (aid : Option String) : Except PyErr (Option SDate) :=
  if s = "" then Except.ok none
  else do
    let structured ←
      match aid with
      | some i => extractStructuredDate o env i
      | none => pure (none : Option SDate)
    match structured with
    | some d => Except.ok (some d)
    | none => do
      let r ← parseDateWithDateutil o nowYear s
      match r with
      | some d => Except.ok (some d)
      | none => Except.ok (parseDateWithRegex nowYear s)

/-! ## Status classifier and score parser (`assignment_scraper.py`,
lines 219-367) -/

/-- `database.models.AssignmentStatus`. -/
inductive AssignmentStatus where
  | submitted
  | late
  | missing
  | upcoming
  | graded
  | excused
  | unknown
deriving DecidableEq, Repr

/-- `database.models.AssignmentType`. -/
inductive AssignmentType where
  | homework
  | project
  | quiz
  | writing
  | lab
  | test
  | other
deriving DecidableEq, Repr

/-- `_determine_assignment_type` (lines 219-234). -/
def determineAssignmentType (context : String) : AssignmentType :=
  let c := String.mk (lowerList context.data)
  if pyContainsStr c "quiz" then .quiz
  else if pyContainsStr c "project" || pyContainsStr c "writing" then .project
  else if pyContainsStr c "homework" || pyContainsStr c "assignment" then .homework
  else if pyContainsStr c "lab" then .lab
  else if pyContainsStr c "test" then .test
  else .other

/-- Signals read from the `td.status` cell: the late/missing pill spans
and the cell's class list. -/
structure StatusCellSig where
  latePill : Bool
  missingPill : Bool
  classes : List String
deriving DecidableEq, Repr

/-- Signals read from the `td.assignment_score` cell: its full text, the
text of its `span.grade` (if any), and the text of the first span whose
string contains a slash (if any). -/
structure ScoreCellSig where
  text : String
  gradeSpanText : Option String
  slashSpanText : Option String
deriving DecidableEq, Repr

/-- The signals `_determine_status` reads from an assignment row. -/
structure RowSig where
  classes : List String
  id : String
  statusCell : Option StatusCellSig
  submissionStatusText : Option String
  dueText : Option String
  submittedText : Option String
  scoreCell : Option ScoreCellSig
deriving DecidableEq, Repr

/-- `submission_status.text.strip() if submission_status else ""`. -/
def statusTextOf (r : RowSig) : String :=
  (r.submissionStatusText.map pyStrip).getD ""

/-- Assignment id recovered from a `submission_NNN` row id
(lines 282-285). -/
def rowAssignmentId (r : RowSig) : Option String :=
  if pyStartsWith r.id "submission_" then
    some (pyReplaceStr r.id "submission_" "")
  else none

/-- Rule 5 of `_determine_status` (lines 276-289): the due cell's text,
when nonempty, is parsed (with the row's assignment id, when its id has
the `submission_` shape) and compared against `datetime.now()`; the
result records whether the rule fires, or the exception the parse
raised. -/
def upcomingEval
    (pd : String → Option String → Except PyErr (Option SDate))
    (today : SDate) (r : RowSig) : Except PyErr Bool :=
  match r.dueText with
  | some t =>
    let ds := pyStrip t
    if ds ≠ "" then
      match pd ds (rowAssignmentId r) with
      | Except.error e => Except.error e
      | Except.ok (some d) => Except.ok (dateLtB today d)
      | Except.ok none => Except.ok false
    else Except.ok false
  | none => Except.ok false

/-- `_determine_status` (lines 236-338): the priority chain.  `pd` is the
date parser (`self._parse_date`); an exception raised while evaluating
rule 5 is caught by the enclosing `except Exception` and mapped to
`UNKNOWN` — nothing else in the body can raise in this model. -/
def determineStatus
    (pd : String → Option String → Except PyErr (Option SDate))
    (today : SDate) (r : RowSig) : AssignmentStatus :=
  -- 1. excused
  if r.classes.contains "excused" then .excused
  else
    let statusText := statusTextOf r
    -- 2. late pill
    if (match r.statusCell with | some sc => sc.latePill | none => false) then .late
    -- 3. graded
    else if statusText = "graded" || r.classes.contains "assignment_graded" then .graded
    -- 4. submitted
    else if statusText = "submitted" then .submitted
    else
      -- 5. upcoming (due date parses and is strictly in the future)
      match upcomingEval pd today r with
      | Except.error _ => .unknown
      | Except.ok true => .upcoming
      | Except.ok false =>
        let missingPill :=
          match r.statusCell with | some sc => sc.missingPill | none => false
        let missingAssignmentClass := r.classes.contains "missing_assignment"
        let missingStatusClass :=
          match r.statusCell with
          | some sc => sc.classes.contains "missing"
          | none => false
        -- 6. missing
        if missingPill then .missing
        else if statusText = "unsubmitted" ∧
            (missingAssignmentClass || missingStatusClass) then .missing
        -- 7. unsubmitted without missing indicator (lines 305-321):
        -- both the pending-grading reading and the fallthrough return UNKNOWN
        else if statusText = "unsubmitted" then
          match r.scoreCell with
          | some sc =>
            let st := pyStrip sc.text
            if pyContainsStr st "–" || pyContainsStr st "-" || st = "" then
              .unknown
            else .unknown
          | none => .unknown
        -- 8. aggregate rows
        else if r.classes.contains "final_grade" || r.classes.contains "group_total" then
          .unknown
        -- 9. submission timestamp present
        else if (match r.submittedText with
                 | some t => decide (pyStrip t ≠ "")
                 | none => false) then .submitted
        -- 10. default
        else .unknown

/-- Python `float(str)` on the numeric-literal forms (optional
whitespace, sign, decimal digits with optional point, optional exponent).
`none` models `ValueError`.  (`inf`/`nan` and underscore separators are
not representable here and are not exercised by score cells.) -/
def pyFloat (s : String) : Option ℚ :=
  let l := pyStripList s.data
  let sl : ℚ × List Char :=
    match l with
    | '+' :: t => (1, t)
    | '-' :: t => (-1, t)
    | _ => (1, l)
  let ip := sl.2.takeWhile Char.isDigit
  let r1 := sl.2.dropWhile Char.isDigit
  let fr : List Char × List Char :=
    match r1 with
    | '.' :: t => (t.takeWhile Char.isDigit, t.dropWhile Char.isDigit)
    | _ => ([], r1)
  if ip = [] ∧ fr.1 = [] then none
  else
    let mant : ℚ :=
      (natOfDigits ip : ℚ) + (natOfDigits fr.1 : ℚ) / (10 : ℚ) ^ fr.1.length
    match fr.2 with
    | [] => some (sl.1 * mant)
    | e :: t =>
      if e = 'e' ∨ e = 'E' then
        let est : Int × List Char :=
          match t with
          | '+' :: u => (1, u)
          | '-' :: u => (-1, u)
          | _ => (1, t)
        let ed := est.2.takeWhile Char.isDigit
        if ed = [] ∨ est.2.dropWhile Char.isDigit ≠ [] then none
        else some (sl.1 * mant * (10 : ℚ) ^ (est.1 * (natOfDigits ed : Int)))
      else none

/-- `_parse_score` (lines 340-367).  The `try` block catches
`(ValueError, AttributeError)` and falls through to `return None, None`;
the raisers are the two `float` conversions. -/
def parseScore (cell : Option ScoreCellSig) : Option ℚ × Option ℚ :=
  match cell with
  | none => (none, none)
  | some c =>
    match c.gradeSpanText with
    | none => (none, none)
    | some g =>
      let gt := pyStrip g
      if gt = "EX" then (none, none)
      else
        -- `score = float(score_text) if score_text and score_text != "EX" else None`
        let scoreStep : Option (Option ℚ) :=
          if gt ≠ "" then
            match pyFloat gt with
            | some q => some (some q)
            | none => none          -- ValueError, caught
          else some none
        match scoreStep with
        | none => (none, none)
        | some sc =>
          match c.slashSpanText with
          | some m =>
            match pyFloat (String.mk (pyStripCharsList ['/', ' '] m.data)) with
            | some mx => (sc, some mx)
            | none => (none, none)  -- ValueError, caught
          | none => (none, none)    -- no `/max` span: fall through

/-! ## Per-row record extraction (`extract_data`, lines 369-442) -/

/-- The assignment link inside the title cell. -/
structure NameLinkSig where
  text : String
  href : String
deriving DecidableEq, Repr

/-- The `th.title` cell: its link and optional `div.context`. -/
structure TitleCellSig where
  nameLink : Option NameLinkSig
  contextText : Option String
deriving DecidableEq, Repr

/-- A full `tr.student_assignment` row as `extract_data` reads it. -/
structure PageRowSig extends RowSig where
  titleCell : Option TitleCellSig
  assignmentIdSpanText : Option String
deriving DecidableEq, Repr

/-- First match of the pattern "/assignments/ followed by digits" in an
href, capturing the maximal digit run. -/
def hrefIdAt (cs : List Char) : Option String :=
  match dropLitCS "/assignments/".data cs with
  | some rest =>
    let ds := rest.takeWhile Char.isDigit
    if ds = [] then none else some (String.mk ds)
  | none => none

/-- Assignment-id extraction from the href (lines 402-408). -/
def assignmentsIdFromHref (href : String) : Option String :=
  if pyContainsStr href "/assignments/" then scanFirstOpt hrefIdAt href.data
  else none

/-- Truthiness of the running `assignment_id` value (Python `None` and
`""` are both falsy). -/
def aidTruthy : Option String → Bool
  | some s => s ≠ ""
  | none => false

/-- The three-strategy assignment-id extraction (lines 393-414): row id,
then link href, then hidden `span.assignment_id`. -/
def extractAssignmentIdOf (r : PageRowSig) (link : NameLinkSig) :
    Option String :=
  let s1 : Option String :=
    if pyStartsWith r.id "submission_" then
      some (pyReplaceStr r.id "submission_" "")
    else none
  let s2 : Option String :=
    if ¬ aidTruthy s1 then
      match assignmentsIdFromHref link.href with
      | some v => some v
      | none => s1
    else s1
  if ¬ aidTruthy s2 then
    match r.assignmentIdSpanText with
    | some t => some (pyStrip t)
    | none => s2
  else s2

/-- One extracted assignment record (the dictionary built at
lines 427-436). -/
structure AssignmentData where
  name : String
  assignmentType : AssignmentType
  dueDate : Option SDate
  submittedDate : Option SDate
  status : AssignmentStatus
  score : Option ℚ
  maxScore : Option ℚ
  isMissing : Bool
deriving DecidableEq, Repr

/-- The body of the per-row loop of `extract_data` (lines 377-440):
`none` models `continue` (missing title cell or link, or an exception
escaping a date parse — the row-level `except Exception` boundary). -/
def extractRow
    (pd : String → Option String → Except PyErr (Option SDate))
    (today : SDate) (r : PageRowSig) : Option AssignmentData :=
  match r.titleCell with
  | none => none
  | some tc =>
    match tc.nameLink with
    | none => none
    | some link =>
      let name := pyStrip link.text
      let context := (tc.contextText.map pyStrip).getD ""
      let aid := extractAssignmentIdOf r link
      match pd ((r.dueText.map pyStrip).getD "") aid with
      | Except.error _ => none
      | Except.ok dueDate =>
        match pd ((r.submittedText.map pyStrip).getD "") aid with
        | Except.error _ => none
        | Except.ok submittedDate =>
          let status := determineStatus pd today r.toRowSig
          let sm := parseScore r.scoreCell
          some { name := name
                 assignmentType := determineAssignmentType context
                 dueDate := dueDate
                 submittedDate := submittedDate
                 status := status
                 score := sm.1
                 maxScore := sm.2
                 isMissing := status = AssignmentStatus.missing }

/-- `extract_data` over the page's `tr.student_assignment` rows, in
document order. -/
def extractAssignments
    (pd : String → Option String → Except PyErr (Option SDate))
    (today : SDate) (rows : List PageRowSig) : List AssignmentData :=
  rows.filterMap (extractRow pd today)

/-! ## Weighted grade calculator (`grade_scraper.py`) -/

/-- One entry of `ENV['course_active_grading_scheme']['data']`: a cutoff
expressed as a 0-1 fraction and a letter name.  (`grade_info.get('value', 0)`
and `grade_info.get('name', 'F')` supply defaults for missing keys; the
model carries the resulting values.) -/
structure SchemeEntry where
  value : ℚ
  name : String
deriving DecidableEq, Repr

/-- One entry of a group's `assignments` list: `assignment.get('id')`
(rendered as the string the code compares, `none` for a missing/null id)
and `assignment.get('points_possible', 0)`. -/
structure EnvAssignment where
  id : Option String
  pointsPossible : ℚ
deriving DecidableEq, Repr

/-- One entry of `ENV['assignment_groups']`. -/
structure EnvGroup where
  groupWeight : ℚ
  assignments : List EnvAssignment
deriving DecidableEq, Repr

/-- One entry of `ENV['submissions']`: the raw `assignment_id` key and
`sub.get('score')`. -/
structure EnvSubmission where
  assignmentId : String
  score : Option ℚ
deriving DecidableEq, Repr

/-- The parts of a parsed ENV blob `_extract_overall_grade` reads.
`gradingData` is `env.get('course_active_grading_scheme', {}).get('data', [])`
(so `[]` both for a missing scheme and for an empty one); missing
`assignment_groups` / `submissions` keys default to `[]` likewise. -/
structure EnvData where
  gradingData : List SchemeEntry
  assignmentGroups : List EnvGroup
  submissions : List EnvSubmission
deriving DecidableEq, Repr

/-- `submission_map[str(assignment_id)]`: the dict comprehension
`{sub['assignment_id']: sub for sub in submissions}` lets a later
duplicate key overwrite an earlier one, so lookup returns the last
matching submission. -/
def lookupSubmission (subs : List EnvSubmission) (aid : String) :
    Option EnvSubmission :=
  (subs.filter (fun sub => sub.assignmentId = aid)).getLast?

/-- The inner loop over one group's assignments (lines 86-99), producing
`(group_earned, group_possible)`: a graded submission's score always
accrues, its `points_possible` only when positive. -/
def groupTotals (subs : List EnvSubmission) (g : EnvGroup) : ℚ × ℚ :=
  g.assignments.foldl
    (fun acc a =>
      match a.id with
      | some i =>
        if i ≠ "" then
          match lookupSubmission subs i with
          | some sub =>
            match sub.score with
            | some sc =>
              (acc.1 + sc,
               if a.pointsPossible > 0 then acc.2 + a.pointsPossible else acc.2)
            | none => acc
          | none => acc
        else acc
      | none => acc)
    (0, 0)

/-- The outer loop over assignment groups (lines 74-107), producing
`(total_weighted_score, total_weight)`: groups with non-positive weight,
no assignments, or zero gradeable points contribute nothing. -/
def weightFold (subs : List EnvSubmission) (groups : List EnvGroup) :
    ℚ × ℚ :=
  groups.foldl
    (fun acc g =>
      if g.groupWeight ≤ 0 then acc
      else if g.assignments = [] then acc
      else
        let t := groupTotals subs g
        if t.2 > 0 then
          (acc.1 + t.1 / t.2 * 100 * g.groupWeight / 100, acc.2 + g.groupWeight)
        else acc)
    (0, 0)

/-- `_percentage_to_letter_grade` (lines 433-458): the fixed default
letter table. -/
def percentageToLetterGrade (percentage : ℚ) : String :=
  if percentage ≥ 94 then "A"
  else if percentage ≥ 90 then "A-"
  else if percentage ≥ 87 then "B+"
  else if percentage ≥ 84 then "B"
  else if percentage ≥ 80 then "B-"
  else if percentage ≥ 77 then "C+"
  else if percentage ≥ 74 then "C"
  else if percentage ≥ 70 then "C-"
  else if percentage ≥ 67 then "D+"
  else if percentage ≥ 64 then "D"
  else if percentage ≥ 60 then "D-"
  else "F"

/-- `_percentage_to_letter_grade_with_scheme` (lines 410-431): sort the
scheme entries by value descending (Python's stable `sorted` with
`reverse=True`), return the first whose cutoff the 0-1 grade reaches,
else `"F"`.  Nothing in the body raises, so the `except` fallback to the
default table is dead code in the model. -/
def percentageToLetterGradeWithScheme (percentage : ℚ)
    (gradingData : List SchemeEntry) : String :=
  let decimalGrade := percentage / 100
  let sortedGrades := gradingData.mergeSort (fun a b => decide (b.value ≤ a.value))
  match sortedGrades.find? (fun gi => decide (decimalGrade ≥ gi.value)) with
  | some gi => gi.name
  | none => "F"

/-- `f"{x:.1f}"` on an exact rational: round to one decimal
(half-to-even, as float formatting does on exactly-representable
midpoints) and render. -/
def fmt1 (q : ℚ) : String :=
  let scaled := q * 10
  let f : Int := Int.floor scaled
  let frac := scaled - f
  let n : Int :=
    if frac < 1/2 then f
    else if frac > 1/2 then f + 1
    else if f % 2 = 0 then f else f + 1
  if n < 0 then
    "-" ++ toString ((-n) / 10) ++ "." ++ toString ((-n) % 10)
  else
    toString (n / 10) ++ "." ++ toString (n % 10)

/-- The record returned by `_extract_overall_grade` on success
(lines 118-125). -/
structure OverallGrade where
  percentage : ℚ
  letterGrade : String
  hasGrade : Bool
  rawText : String
  totalWeightedScore : ℚ
  totalWeight : ℚ
deriving DecidableEq, Repr

/-- `_extract_overall_grade` (lines 48-129): `none` for a missing blob,
missing/empty `assignment_groups` or `submissions`, or zero accumulated
weight; otherwise the weighted percentage and its letter grade. -/
def extractOverallGrade (env : Option EnvData) : Option OverallGrade :=
  match env with
  | none => none
  | some e =>
    if e.assignmentGroups = [] then none
    else if e.submissions = [] then none
    else
      let t := weightFold e.submissions e.assignmentGroups
      if t.2 = 0 then none
      else
        let finalPercentage := t.1 / t.2 * 100
        let letter := percentageToLetterGradeWithScheme finalPercentage e.gradingData
        some { percentage := finalPercentage
               letterGrade := letter
               hasGrade := true
               rawText := fmt1 finalPercentage ++ "% (" ++ letter ++ ")"
               totalWeightedScore := t.1
               totalWeight := t.2 }

/-- The dictionary `GradeScraper.extract_data` returns (lines 10-46).
`β` is the shape of a grade-breakdown entry (built by the HTML-side
helpers, which the overall grade never consults). -/
structure GradeData (β : Type) where
  overallGrade : Option ℚ
  overallLetterGrade : Option String
  gradeBreakdown : List β
  assignmentWeights : List (String × ℚ)
  totalWeight : ℚ
  courseGrade : Option ℚ
  courseLetterGrade : Option String
  hasCourseGrade : Bool

/-- `GradeScraper.extract_data` (lines 10-46).  The grade-breakdown and
assignment-weight extractions (`_extract_grade_breakdown`,
`_extract_assignment_weights`) scrape page HTML and are supplied as
inputs; the overall grade comes only from `_extract_overall_grade` over
the ENV blob. -/
def extractGradeData {β : Type} (env : Option EnvData)
    (breakdown : List β) (weights : List (String × ℚ)) : GradeData β :=
  let base : GradeData β :=
    { overallGrade := none
      overallLetterGrade := none
      gradeBreakdown := []
      assignmentWeights := []
      totalWeight := 0
      courseGrade := none
      courseLetterGrade := none
      hasCourseGrade := false }
  let withOverall :=
    match extractOverallGrade env with
    | some og =>
      if og.hasGrade then
        { base with
            overallGrade := some og.percentage
            overallLetterGrade := some og.letterGrade
            courseGrade := some og.percentage
            courseLetterGrade := some og.letterGrade
            hasCourseGrade := og.hasGrade }
      else base
    | none => base
  let withBreakdown :=
    if !breakdown.isEmpty then { withOverall with gradeBreakdown := breakdown }
    else withOverall
  if !weights.isEmpty then
    { withBreakdown with
        assignmentWeights := weights
        totalWeight := (weights.map (·.2)).sum }
  else withBreakdown

/-! ## Presentation formatter (`page_generator.py`, `_format_score`,
lines 83-152) -/

/-- The numeric payload of a rendered score: a percentage (`"{score:g}%"`,
used when `max_score == 100`) or a fraction (`"{score:g}/{max:g}"`).  The
`:g` rendering (which drops a trailing `.0`) is abstracted by carrying the
exact rational payloads. -/
inductive ScoreDisplay where
  | pct (score : ℚ)
  | frac (score maxScore : ℚ)
deriving DecidableEq, Repr

/-- The fragment `_format_score` renders: the empty placeholder, or a
letter grade with its CSS class and numeric display. -/
inductive ScoreFragment where
  | placeholder
  | graded (letter : String) (gradeClass : String) (display : ScoreDisplay)
deriving DecidableEq, Repr

/-- `_format_score` (lines 83-152) on already-numeric inputs (the
`float()` coercions succeed; non-numeric inputs land in the placeholder
branch like absent ones). -/
def formatScore (score maxScore : Option ℚ) : ScoreFragment :=
  match score, maxScore with
  | none, _ => .placeholder
  | _, none => .placeholder
  | some s, some m =>
    let percentage : ℚ := if m = 0 then 0 else s / m * 100
    let band : String × String :=
      if percentage ≥ 90 then ("A", "grade-a")
      else if percentage ≥ 80 then ("B", "grade-b")
      else if percentage ≥ 70 then ("C", "grade-c")
      else if percentage ≥ 60 then ("D", "grade-d")
      else ("F", "grade-f")
    let display : ScoreDisplay := if m = 100 then .pct s else .frac s m
    .graded band.1 band.2 display

/-! ## Derived predicates and concrete inputs used by the theorems -/

/-- No character of `l` is a decimal digit.  Both regex-based strategies
of the normalizer require a digit somewhere in the (cleaned) input, so
this is the invariant behind the sentinel claims. -/
def noDigit (l : List Char) : Prop :=
  ∀ c ∈ l, c.isDigit = false

/-- The "no due date" sentinel inputs of the specification: any letter
casing of `"no due date"`, `"tbd"`, `"n/a"`, `"-"`, `"none"`, plus the
empty string and pure-whitespace strings. -/
def isNoDueDateSentinel (s : String) : Bool :=
  ["no due date", "tbd", "n/a", "-", "none"].any
    (fun w => lowerList s.data = w.data) ||
  s.data.all isPySpace

/-- The external parser fails only with the exceptions the source's
`except (ValueError, TypeError)` anticipates (as `dateutil`'s documented
parse failures do). -/
def duParseTame (o : Oracles) : Prop :=
  ∀ s y e, o.duParse s y = Except.error e →
    e = PyErr.valueError ∨ e = PyErr.typeError

/-- A concrete oracle: the external parser rejects every input with
`ValueError`. -/
def rejectAllOracle : Oracles :=
  { duParse := fun _ _ => Except.error PyErr.valueError
    isoParse := fun _ => Except.error PyErr.valueError }

/-- The §8 scenario of the specification: Homework weight 40 with 90
earned of 100 possible, Quizzes weight 60 with 70 of 100, and no
course-specific grading scheme in the ENV blob. -/
def envC1Scenario : EnvData :=
  { gradingData := []
    assignmentGroups :=
      [{ groupWeight := 40, assignments := [{ id := some "1", pointsPossible := 100 }] },
       { groupWeight := 60, assignments := [{ id := some "2", pointsPossible := 100 }] }]
    submissions := [{ assignmentId := "1", score := some 90 },
                    { assignmentId := "2", score := some 70 }] }

/-- An ENV blob whose only category has `points_possible = 0` everywhere:
a graded submission exists but no gradeable points, so the accumulated
weight is zero. -/
def envAllZeroPossible : EnvData :=
  { gradingData := []
    assignmentGroups :=
      [{ groupWeight := 50, assignments := [{ id := some "1", pointsPossible := 0 }] }]
    submissions := [{ assignmentId := "1", score := some 5 }] }

/-- A group whose single assignment has no gradeable points (used to
witness the zero-possible-contributes-nothing invariant). -/
def zeroPossibleGroup : EnvGroup :=
  { groupWeight := 30, assignments := [{ id := some "9", pointsPossible := 0 }] }

/-- An excused row that simultaneously carries every conflicting signal:
late pill, graded class and text, missing pill and class, future due
date, submission timestamp, and a score cell. -/
def excusedConflictRow : RowSig :=
  { classes := ["excused", "assignment_graded", "final_grade"]
    id := "submission_9"
    statusCell := some { latePill := true, missingPill := true, classes := ["missing"] }
    submissionStatusText := some "graded"
    dueText := some "May 23, 2099"
    submittedText := some "May 1, 2025"
    scoreCell := some { text := "50 / 100", gradeSpanText := some "50", slashSpanText := some "/ 100" } }

/-- The §8 scenario row: unsubmitted, missing-pill set, score cell
`"- / 10"` reading like a pending-grading placeholder. -/
def missingPillRow : RowSig :=
  { classes := ["student_assignment"]
    id := "submission_7"
    statusCell := some { latePill := false, missingPill := true, classes := [] }
    submissionStatusText := some "unsubmitted"
    dueText := none
    submittedText := none
    scoreCell := some { text := "- / 10", gradeSpanText := some "", slashSpanText := some "/ 10" } }

/-- A date parser that finds nothing (e.g. no blob and unparsable text). -/
def noDateLookup : String → Option String → Except PyErr (Option SDate) :=
  fun _ _ => Except.ok none

/-- An arbitrary "today" used to instantiate `datetime.now()`. -/
def someToday : SDate := ⟨2025, 6, 1⟩

/-- A malformed-but-parseable ENV blob: `assignment_groups` holds a bare
string, so the structured-date lookup calls `.get` on a `str`. -/
def malformedEnvBlob : PyVal :=
  PyVal.dict [("assignment_groups", PyVal.list [PyVal.str "oops"])]

/-- A full page row for the extraction loop: missing pill set, no parse
needed anywhere, empty grade span. -/
def pageRowMissing : PageRowSig :=
  { classes := ["student_assignment"]
    id := "submission_11"
    statusCell := some { latePill := false, missingPill := true, classes := [] }
    submissionStatusText := some "unsubmitted"
    dueText := none
    submittedText := none
    scoreCell := some { text := "-", gradeSpanText := none, slashSpanText := none }
    titleCell := some { nameLink := some { text := "Essay 1", href := "/courses/1/assignments/11/submissions/2" }
                        contextText := some "Homework" }
    assignmentIdSpanText := none }

/-- A full page row with no special signals (status falls through to
UNKNOWN). -/
def pageRowPlain : PageRowSig :=
  { classes := ["student_assignment"]
    id := "submission_12"
    statusCell := none
    submissionStatusText := none
    dueText := none
    submittedText := none
    scoreCell := none
    titleCell := some { nameLink := some { text := "Quiz 3", href := "" }
                        contextText := some "Quizzes" }
    assignmentIdSpanText := none }

/-- A score cell whose grade span is empty but which still carries a
`"/ 10"` companion span (an ungraded assignment with published points). -/
def emptyGradeCell : ScoreCellSig :=
  { text := "- / 10", gradeSpanText := some "", slashSpanText := some "/ 10" }

/-- A score cell holding a valid numeric grade but no `/max` companion
span. -/
def lonelyGradeCell : ScoreCellSig :=
  { text := "7", gradeSpanText := some "7", slashSpanText := none }

/-- The record the extraction loop produces for `pageRowMissing`. -/
def missingRecord : AssignmentData :=
  { name := "Essay 1"
    assignmentType := AssignmentType.homework
    dueDate := none
    submittedDate := none
    status := AssignmentStatus.missing
    score := none
    maxScore := none
    isMissing := true }

/-- Modelled from the spec (§4.6, as amended): the percentage the
formatter bands, treating `max_score == 0` as 0%. -/
def specPercentage (score maxScore : ℚ) : ℚ :=
  if maxScore = 0 then 0 else score / maxScore * 100

/-- Modelled from the spec (§4.6, as amended): the coarse banding table
the formatter uses — A ≥90, B ≥80, C ≥70, D ≥60, else F — with its CSS
class. -/
def specCoarseBand (p : ℚ) : String × String :=
  if p ≥ 90 then ("A", "grade-a")
  else if p ≥ 80 then ("B", "grade-b")
  else if p ≥ 70 then ("C", "grade-c")
  else if p ≥ 60 then ("D", "grade-d")
  else ("F", "grade-f")

/-! ## Helper lemmas: a digit-free input cannot produce a date -/

theorem toLower_eq_self_of_isDigit (c : Char) (h : c.isDigit = true) :
    c.toLower = c := by
  simp only [Char.isDigit, Bool.and_eq_true, decide_eq_true_eq] at h
  obtain ⟨h1, h2⟩ := h
  have h1' : (48 : Nat) ≤ c.val.toNat := h1
  have h2' : c.val.toNat ≤ 57 := h2
  simp only [Char.toLower]
  have hne : ¬(65 ≤ c.toNat ∧ c.toNat ≤ 90) := by
    intro hc
    have : c.toNat = c.val.toNat := rfl
    omega
  rw [if_neg (by simpa using hne)]

theorem isPySpace_not_digit (c : Char) (h : isPySpace c = true) :
    c.isDigit = false := by
  simp only [isPySpace, Bool.or_eq_true, decide_eq_true_eq] at h
  rcases h with ((((h | h) | h) | h) | h) | h <;> subst h <;> decide

theorem mem_of_mem_dropWhile {p : Char → Bool} {l : List Char} {c : Char}
    (h : c ∈ l.dropWhile p) : c ∈ l := by
  induction l with
  | nil => simp at h
  | cons a as ih =>
    by_cases hp : p a
    · rw [List.dropWhile_cons, if_pos hp] at h
      exact List.mem_cons_of_mem a (ih h)
    · rw [List.dropWhile_cons, if_neg hp] at h
      exact h

theorem mem_of_mem_pyStripList {l : List Char} {c : Char}
    (h : c ∈ pyStripList l) : c ∈ l := by
  unfold pyStripList at h
  rw [List.mem_reverse] at h
  have h2 := mem_of_mem_dropWhile h
  rw [List.mem_reverse] at h2
  exact mem_of_mem_dropWhile h2

theorem mem_of_mem_truncAtFirst {p : List Char → Bool} {l : List Char}
    {c : Char} (h : c ∈ truncAtFirst p l) : c ∈ l := by
  induction l with
  | nil => simp [truncAtFirst] at h
  | cons a as ih =>
    by_cases hp : p (a :: as)
    · rw [truncAtFirst, if_pos hp] at h
      simp at h
    · rw [truncAtFirst, if_neg hp] at h
      rcases List.mem_cons.mp h with h | h
      · exact h ▸ List.mem_cons_self a as
      · exact List.mem_cons_of_mem a (ih h)

theorem mem_of_mem_replaceAllAux_nil {pat : List Char} {fuel : Nat}
    {l : List Char} {c : Char} (h : c ∈ replaceAllAux pat [] fuel l) :
    c ∈ l := by
  induction fuel generalizing l with
  | zero =>
    cases l with
    | nil => simp [replaceAllAux] at h
    | cons a as => simpa [replaceAllAux] using h
  | succ n ih =>
    cases l with
    | nil => simp [replaceAllAux] at h
    | cons a as =>
      by_cases hp : pat ≠ [] ∧ isPrefixList pat (a :: as) = true
      · rw [replaceAllAux, if_pos hp] at h
        rw [List.nil_append] at h
        exact List.mem_cons_of_mem a (List.drop_subset _ _ (ih h))
      · rw [replaceAllAux, if_neg hp] at h
        rcases List.mem_cons.mp h with h | h
        · exact h ▸ List.mem_cons_self a as
        · exact List.mem_cons_of_mem a (ih h)

theorem mem_of_mem_replaceAllList_nil {pat l : List Char} {c : Char}
    (h : c ∈ replaceAllList pat [] l) : c ∈ l :=
  mem_of_mem_replaceAllAux_nil h

theorem noDigit_cleanDateList {l : List Char} (h : noDigit l) :
    noDigit (cleanDateList l) := by
  intro c hc
  unfold cleanDateList at hc
  exact h c
    (mem_of_mem_replaceAllList_nil
      (mem_of_mem_replaceAllList_nil
        (mem_of_mem_truncAtFirst
          (mem_of_mem_truncAtFirst
            (mem_of_mem_truncAtFirst
              (mem_of_mem_truncAtFirst
                (mem_of_mem_truncAtFirst
                  (mem_of_mem_pyStripList hc))))))))

theorem wsdAt_eq_false {cs : List Char} (h : noDigit cs) : wsdAt cs = false := by
  unfold wsdAt
  cases hm : (cs.dropWhile isWordChar).dropWhile isPySpace with
  | nil => simp [hm]
  | cons d rest =>
    have hd : d ∈ cs :=
      mem_of_mem_dropWhile (mem_of_mem_dropWhile (hm ▸ List.mem_cons_self d rest))
    simp [hm, h d hd]

theorem dsdAt_eq_false {cs : List Char} (h : noDigit cs) : dsdAt cs = false := by
  unfold dsdAt
  cases cs with
  | nil => rfl
  | cons d cs' => simp [h d (List.mem_cons_self d cs')]

theorem validationSearch_eq_false {l : List Char} (h : noDigit l) :
    validationSearch l = false := by
  unfold validationSearch
  induction l with
  | nil => rfl
  | cons c cs ih =>
    have h' : noDigit cs := fun x hx => h x (List.mem_cons_of_mem c hx)
    rw [scanHasMatch, wsdAt_eq_false h, dsdAt_eq_false h, ih h']
    rfl

theorem numAt_eq_none {cs : List Char} (h : noDigit cs) : numAt cs = none := by
  unfold numAt
  cases cs with
  | nil => rfl
  | cons d rest => simp [h d (List.mem_cons_self d rest)]

theorem textAt_eq_none {cs : List Char} (h : noDigit cs) : textAt cs = none := by
  unfold textAt
  by_cases h1 : cs.takeWhile isWordChar = []
  · simp [h1]
  · rw [if_neg (by simpa using h1)]
    by_cases h2 : (cs.dropWhile isWordChar).takeWhile isPySpace = []
    · simp [h2]
    · rw [if_neg (by simpa using h2)]
      cases hm : (cs.dropWhile isWordChar).dropWhile isPySpace with
      | nil => rfl
      | cons d1 rest =>
        have hd : d1 ∈ cs :=
          mem_of_mem_dropWhile (mem_of_mem_dropWhile (hm ▸ List.mem_cons_self d1 rest))
        simp [h d1 hd]

theorem scanFirstOpt_numAt_eq_none {l : List Char} (h : noDigit l) :
    scanFirstOpt numAt l = none := by
  induction l with
  | nil => rfl
  | cons c cs ih =>
    have h' : noDigit cs := fun x hx => h x (List.mem_cons_of_mem c hx)
    rw [scanFirstOpt, numAt_eq_none h, ih h']

theorem scanFirstOpt_textAt_eq_none {l : List Char} (h : noDigit l) :
    scanFirstOpt textAt l = none := by
  induction l with
  | nil => rfl
  | cons c cs ih =>
    have h' : noDigit cs := fun x hx => h x (List.mem_cons_of_mem c hx)
    rw [scanFirstOpt, textAt_eq_none h, ih h']

theorem parseDateWithDateutil_of_noDigit (o : Oracles) (nowYear : Int)
    {s : String} (h : noDigit s.data) :
    parseDateWithDateutil o nowYear s = Except.ok none := by
  unfold parseDateWithDateutil
  by_cases he : s = ""
  · simp [he]
  · rw [if_neg he]
    have hv : validationSearch (cleanDateList s.data) = false :=
      validationSearch_eq_false (noDigit_cleanDateList h)
    simp [hv]

theorem parseDateWithRegex_of_noDigit (nowYear : Int) {s : String}
    (h : noDigit s.data) : parseDateWithRegex nowYear s = none := by
  unfold parseDateWithRegex
  by_cases he : s = ""
  · simp [he]
  · rw [if_neg he]
    simp only [scanFirstOpt_numAt_eq_none (noDigit_cleanDateList h),
      scanFirstOpt_textAt_eq_none (noDigit_cleanDateList h)]

theorem noDigit_of_sentinel {s : String} (h : isNoDueDateSentinel s = true) :
    noDigit s.data := by
  unfold isNoDueDateSentinel at h
  rw [Bool.or_eq_true] at h
  rcases h with h | h
  · simp only [List.any_eq_true, decide_eq_true_eq] at h
    obtain ⟨w, hw, heq⟩ := h
    intro c hc
    by_contra hdig
    rw [Bool.not_eq_false] at hdig
    have hmem : c.toLower ∈ lowerList s.data := List.mem_map_of_mem Char.toLower hc
    rw [toLower_eq_self_of_isDigit c hdig, heq] at hmem
    have hnw : noDigit w.data := by unfold noDigit; fin_cases hw <;> decide
    rw [hnw c hmem] at hdig
    exact Bool.false_ne_true hdig
  · rw [List.all_eq_true] at h
    intro c hc
    exact isPySpace_not_digit c (by simpa using h c hc)

theorem except_bind_ok {e a b : Type} (x : a) (f : a → Except e b) :
    (Except.ok x : Except e a) >>= f = f x := rfl

/-! ## Claim theorems -/

/-- C1 (counterexample): on the claim's scenario — categories Homework
(weight 40, 90/100) and Quizzes (weight 60, 70/100) with no
course-specific grading scheme in the ENV blob — the weighted grade
calculator produces aggregate percentage 78 with letter grade "F", not
the claimed "C+". -/
theorem c1_counterexample :
    (extractOverallGrade (some envC1Scenario)).map
      (fun og => (og.percentage, og.letterGrade)) = some (78, "F") ∧
    ("F" : String) ≠ "C+" := by
  constructor
  · simp +decide [extractOverallGrade, weightFold, groupTotals, lookupSubmission,
      envC1Scenario, List.filter, percentageToLetterGradeWithScheme]
    norm_num
  · decide

/-- C1 (amended): when the ENV blob carries no
`course_active_grading_scheme` data, the scheme-based letter mapping runs
over an empty table and returns "F" for every percentage — the fixed
default table (A ≥94, ..., else F) is reached only on an exception.  The
scenario categories {Homework: 40, 90/100} and {Quizzes: 60, 70/100}
yield aggregate percentage 78.0 mapped to "F", whereas the default table
itself would map 78.0 to "C+". -/
theorem c1_empty_scheme_letter :
    (∀ p : ℚ, percentageToLetterGradeWithScheme p [] = "F") ∧
    (extractOverallGrade (some envC1Scenario)).map
      (fun og => (og.percentage, og.letterGrade)) = some (78, "F") ∧
    percentageToLetterGrade 78 = "C+" := by
  refine ⟨fun p => ?_, ?_, ?_⟩
  · simp [percentageToLetterGradeWithScheme]
  · simp +decide [extractOverallGrade, weightFold, groupTotals, lookupSubmission,
      envC1Scenario, List.filter, percentageToLetterGradeWithScheme]
    norm_num
  · norm_num [percentageToLetterGrade]

/-- C2 (counterexample): the presentation formatter's letter for a 92/100
score is "A" under its coarse banding, while the §4.5 default scale (which
the claim says it shares) maps 92 to "A-". -/
theorem c2_counterexample :
    formatScore (some 92) (some 100) =
      ScoreFragment.graded "A" "grade-a" (ScoreDisplay.pct 92) ∧
    percentageToLetterGrade 92 = "A-" ∧ ("A" : String) ≠ "A-" := by
  refine ⟨?_, ?_, by decide⟩
  · norm_num [formatScore]
  · norm_num [percentageToLetterGrade]

/-- C2 (amended): for every present numeric pair the formatter derives
its letter from the coarse four-cutoff table (A ≥90, B ≥80, C ≥70, D ≥60,
else F) — not §4.5's default scale — treats `max_score == 0` as 0%, and
renders a percentage when `max_score == 100` and a fraction
earned/possible otherwise (numerals via `%g`, which strips a trailing
`.0`; the model carries the exact rational payloads). -/
theorem c2_formatter_bands_coarsely :
    ∀ score maxScore : ℚ,
      formatScore (some score) (some maxScore) =
        ScoreFragment.graded (specCoarseBand (specPercentage score maxScore)).1
          (specCoarseBand (specPercentage score maxScore)).2
          (if maxScore = 100 then ScoreDisplay.pct score
           else ScoreDisplay.frac score maxScore) :=
  fun _ _ => rfl

/-- C3: a grading category whose possible total is zero contributes no
weight to the aggregate (removing it changes nothing), and when the
accumulated weight over all categories is zero the calculator returns an
absent result with `has_grade` false and absent percentages — distinct
from a 0% grade. -/
theorem c3_zero_weight_absent :
    (∀ (subs : List EnvSubmission) (pre post : List EnvGroup) (g : EnvGroup),
        (groupTotals subs g).2 = 0 →
        weightFold subs (pre ++ g :: post) = weightFold subs (pre ++ post)) ∧
    (∀ (e : EnvData) (β : Type) (breakdown : List β)
        (weights : List (String × ℚ)),
        (weightFold e.submissions e.assignmentGroups).2 = 0 →
        extractOverallGrade (some e) = none ∧
        (extractGradeData (some e) breakdown weights).hasCourseGrade = false ∧
        (extractGradeData (some e) breakdown weights).overallGrade = none ∧
        (extractGradeData (some e) breakdown weights).courseGrade = none) := by
  constructor
  · intro subs pre post g hg
    unfold weightFold
    rw [List.foldl_append, List.foldl_append, List.foldl_cons]
    congr 1
    show (if g.groupWeight ≤ 0 then _ else _) = _
    by_cases h1 : g.groupWeight ≤ 0
    · simp [h1]
    · by_cases h2 : g.assignments = []
      · simp [h1, h2]
      · simp [h1, h2, hg]
  · intro e β breakdown weights h
    have hog : extractOverallGrade (some e) = none := by
      unfold extractOverallGrade
      by_cases h1 : e.assignmentGroups = []
      · simp [h1]
      · by_cases h2 : e.submissions = []
        · simp [h1, h2]
        · simp [h1, h2, h]
    refine ⟨hog, ?_, ?_, ?_⟩ <;>
      · simp only [extractGradeData, hog]
        split <;> split <;> rfl

/-- C3 (witness): a concrete blob whose only category has
`points_possible = 0` everywhere: the category contributes no weight and
the overall grade is absent. -/
theorem c3_witness :
    ((groupTotals envAllZeroPossible.submissions zeroPossibleGroup).2 = 0 ∧
      weightFold envAllZeroPossible.submissions ([] ++ zeroPossibleGroup :: []) =
        weightFold envAllZeroPossible.submissions ([] ++ [])) ∧
    ((weightFold envAllZeroPossible.submissions envAllZeroPossible.assignmentGroups).2 = 0 ∧
      extractOverallGrade (some envAllZeroPossible) = none ∧
      (extractGradeData (some envAllZeroPossible) ([] : List Unit) []).hasCourseGrade = false) := by
  have h1 : (groupTotals envAllZeroPossible.submissions zeroPossibleGroup).2 = 0 := by
    simp +decide [groupTotals, lookupSubmission, envAllZeroPossible, zeroPossibleGroup,
      List.filter]
  have h2 : (weightFold envAllZeroPossible.submissions envAllZeroPossible.assignmentGroups).2 = 0 := by
    simp +decide [weightFold, groupTotals, lookupSubmission, envAllZeroPossible, List.filter]
  exact ⟨⟨h1, c3_zero_weight_absent.1 _ [] [] _ h1⟩,
    ⟨h2, (c3_zero_weight_absent.2 _ Unit [] [] h2).1,
      (c3_zero_weight_absent.2 _ Unit [] [] h2).2.1⟩⟩

/-- C4: for every row carrying the `excused` class, `classify` returns
`EXCUSED` regardless of every other signal — any date parser, any
current date, and any other row content. -/
theorem c4_excused_highest_priority :
    ∀ (pd : String → Option String → Except PyErr (Option SDate))
      (today : SDate) (r : RowSig),
      r.classes.contains "excused" = true →
      determineStatus pd today r = AssignmentStatus.excused := by
  intro pd today r h
  unfold determineStatus
  rw [if_pos h]

/-- C4 (witness): a row that is excused and simultaneously late-pilled,
graded, missing-pilled, with a future due date and a submission
timestamp, still classifies as `EXCUSED`. -/
theorem c4_excused_highest_priority_witness :
    excusedConflictRow.classes.contains "excused" = true ∧
    determineStatus (fun _ _ => Except.ok (some ⟨2099, 1, 1⟩)) someToday
      excusedConflictRow = AssignmentStatus.excused :=
  ⟨by decide,
    c4_excused_highest_priority (fun _ _ => Except.ok (some ⟨2099, 1, 1⟩))
      someToday excusedConflictRow (by decide)⟩

/-- C5: when no higher-priority rule matches (not excused, no late pill,
not graded, status text not "submitted", and the rule-5 due-date check
evaluates to false without raising), a missing-pill forces `MISSING` even
when the score cell reads like a pending-grading placeholder; so does an
"unsubmitted" status text combined with a missing-class indicator.  In
particular the scenario row — unsubmitted, missing-pill, score cell
`"- / 10"` — classifies as `MISSING`. -/
theorem c5_missing_pill_overrides_pending :
    (∀ (pd : String → Option String → Except PyErr (Option SDate))
       (today : SDate) (r : RowSig),
       r.classes.contains "excused" = false →
       (match r.statusCell with
        | some sc => sc.latePill
        | none => false) = false →
       statusTextOf r ≠ "graded" →
       r.classes.contains "assignment_graded" = false →
       statusTextOf r ≠ "submitted" →
       upcomingEval pd today r = Except.ok false →
       ((match r.statusCell with
         | some sc => sc.missingPill
         | none => false) = true ∨
        (statusTextOf r = "unsubmitted" ∧
          (r.classes.contains "missing_assignment" ||
            (match r.statusCell with
             | some sc => sc.classes.contains "missing"
             | none => false)) = true)) →
       determineStatus pd today r = AssignmentStatus.missing) ∧
    determineStatus noDateLookup someToday missingPillRow =
      AssignmentStatus.missing := by
  constructor
  · intro pd today r h1 h2 h3 h4 h5 h6 h7
    unfold determineStatus
    rw [if_neg (by simp_all), if_neg (by simp_all), if_neg (by simp_all),
      if_neg (by simp_all), h6]
    rcases h7 with h7 | ⟨h7a, h7b⟩
    · simp_all
    · by_cases hp : (match r.statusCell with
        | some sc => sc.missingPill
        | none => false) = true
      · simp_all
      · simp only [Bool.not_eq_true] at hp
        rw [if_neg (by simp_all), if_pos ⟨h7a, h7b⟩]
  · decide

/-- C5 (witness): the general rule applied to the scenario row itself
(no due text, missing pill set, score cell `"- / 10"`). -/
theorem c5_missing_pill_overrides_pending_witness :
    (missingPillRow.classes.contains "excused" = false ∧
      upcomingEval noDateLookup someToday missingPillRow = Except.ok false) ∧
    determineStatus noDateLookup someToday missingPillRow =
      AssignmentStatus.missing :=
  ⟨⟨by decide, by decide⟩,
    c5_missing_pill_overrides_pending.1 noDateLookup someToday missingPillRow
      (by decide) (by decide) (by decide) (by decide) (by decide) (by decide)
      (Or.inl (by decide))⟩

/-- C6: for every "no due date" sentinel string — any letter casing of
"no due date", "tbd", "n/a", "-", "none", the empty string, or a
pure-whitespace string — the date normalizer produces no date: the
result is absent for any embedded blob when no assignment id is
supplied, and for any assignment id when there is no blob. -/
theorem c6_sentinels_yield_absent :
    ∀ (o : Oracles) (nowYear : Int) (s : String),
      isNoDueDateSentinel s = true →
      (∀ env : Option PyVal,
        parseDate o nowYear env s none = Except.ok none) ∧
      (∀ aid : Option String,
        parseDate o nowYear none s aid = Except.ok none) := by
  intro o nowYear s hs
  have hnd : noDigit s.data := noDigit_of_sentinel hs
  have hdu : parseDateWithDateutil o nowYear s = Except.ok none :=
    parseDateWithDateutil_of_noDigit o nowYear hnd
  have hrx : parseDateWithRegex nowYear s = none :=
    parseDateWithRegex_of_noDigit nowYear hnd
  by_cases he : s = ""
  · exact ⟨fun env => by simp [parseDate, he], fun aid => by simp [parseDate, he]⟩
  · have tail :
        (do
          let r ← parseDateWithDateutil o nowYear s
          match r with
          | some d => Except.ok (some d)
          | none =>
            (Except.ok (parseDateWithRegex nowYear s) :
              Except PyErr (Option SDate))) = Except.ok none := by
      rw [hdu, except_bind_ok, hrx]
    have main : ∀ (env : Option PyVal) (aid : Option String),
        aid = none ∨ env = none →
        parseDate o nowYear env s aid = Except.ok none := by
      intro env aid hcase
      unfold parseDate
      rw [if_neg he]
      rcases hcase with rfl | rfl
      · exact tail
      · cases aid with
        | none => exact tail
        | some i =>
          have hsd : extractStructuredDate o none i = Except.ok none := by
            unfold extractStructuredDate
            by_cases hi : i = "" <;> simp [hi]
          simp only [hsd, except_bind_ok]
          exact tail
    exact ⟨fun env => main env none (Or.inl rfl),
      fun aid => main none aid (Or.inr rfl)⟩

/-- C6 (witness): "TBD" yields an absent date, both with a (malformed)
blob and no assignment id, and with an assignment id and no blob. -/
theorem c6_sentinels_yield_absent_witness :
    isNoDueDateSentinel "TBD" = true ∧
    parseDate rejectAllOracle 2025 (some malformedEnvBlob) "TBD" none =
      Except.ok none ∧
    parseDate rejectAllOracle 2025 none "TBD" (some "1") = Except.ok none :=
  ⟨by decide,
    (c6_sentinels_yield_absent rejectAllOracle 2025 "TBD" (by decide)).1
      (some malformedEnvBlob),
    (c6_sentinels_yield_absent rejectAllOracle 2025 "TBD" (by decide)).2
      (some "1")⟩

/-- C8 (counterexample): with an embedded blob whose `assignment_groups`
list holds a bare string and an assignment id present, the date
normalizer raises (`AttributeError` from `.get` on a `str`) instead of
degrading to an absent result. -/
theorem c8_counterexample :
    parseDate rejectAllOracle 2025 (some malformedEnvBlob) "May 5, 2025"
      (some "1") = Except.error PyErr.attributeError := by
  decide

/-- C8 (amended): for every input string, the normalizer invoked without
an assignment id (so without the structured-blob lookup, which can
propagate an exception on a malformed blob) never raises: whenever the
external parser fails only with the ValueError/TypeError the code
catches, every input degrades to a returned (possibly absent) result. -/
theorem c8_no_raise_without_structured_lookup :
    ∀ (o : Oracles) (nowYear : Int) (env : Option PyVal) (s : String),
      duParseTame o →
      ∃ v, parseDate o nowYear env s none = Except.ok v := by
  intro o nowYear env s htame
  by_cases he : s = ""
  · exact ⟨none, by simp [parseDate, he]⟩
  · have hdu : ∃ v, parseDateWithDateutil o nowYear s = Except.ok v := by
      simp only [parseDateWithDateutil]
      rw [if_neg he]
      split
      · exact ⟨none, rfl⟩
      · split
        · exact ⟨none, rfl⟩
        · split
          · next e heq =>
            rcases htame _ _ _ heq with h | h <;> exact ⟨none, by simp [h]⟩
          · next pd heq =>
            split
            · exact ⟨none, rfl⟩
            · exact ⟨_, rfl⟩
    obtain ⟨v, hv⟩ := hdu
    cases v with
    | some d =>
      refine ⟨some d, ?_⟩
      unfold parseDate
      rw [if_neg he]
      show (do
        let r ← parseDateWithDateutil o nowYear s
        match r with
        | some d => Except.ok (some d)
        | none =>
          (Except.ok (parseDateWithRegex nowYear s) :
            Except PyErr (Option SDate))) = _
      rw [hv, except_bind_ok]
    | none =>
      refine ⟨parseDateWithRegex nowYear s, ?_⟩
      unfold parseDate
      rw [if_neg he]
      show (do
        let r ← parseDateWithDateutil o nowYear s
        match r with
        | some d => Except.ok (some d)
        | none =>
          (Except.ok (parseDateWithRegex nowYear s) :
            Except PyErr (Option SDate))) = _
      rw [hv, except_bind_ok]

/-- C8 (witness): the amended no-raise statement at a concrete input: a
date-shaped string under an oracle that rejects every input with
`ValueError`, with a malformed blob present but no assignment id. -/
theorem c8_no_raise_without_structured_lookup_witness :
    duParseTame rejectAllOracle ∧
    ∃ v, parseDate rejectAllOracle 2025 (some malformedEnvBlob)
      "May 5, 2025" none = Except.ok v :=
  ⟨fun _ _ e h => by
      simp only [rejectAllOracle, Except.error.injEq] at h
      exact Or.inl h.symm,
    c8_no_raise_without_structured_lookup rejectAllOracle 2025
      (some malformedEnvBlob) "May 5, 2025"
      (fun _ _ e h => by
        simp only [rejectAllOracle, Except.error.injEq] at h
        exact Or.inl h.symm)⟩

/-- C7: every `AssignmentRecord` produced by extraction has `is_missing`
equal to `(status == MISSING)` — true exactly when the classified status
is `MISSING` — for every date parser, current date, and page. -/
theorem c7_is_missing_invariant :
    ∀ (pd : String → Option String → Except PyErr (Option SDate))
      (today : SDate) (rows : List PageRowSig),
      ∀ rec ∈ extractAssignments pd today rows,
        rec.isMissing = decide (rec.status = AssignmentStatus.missing) := by
  intro pd today rows rec hmem
  rw [extractAssignments, List.mem_filterMap] at hmem
  obtain ⟨row, _, hrow⟩ := hmem
  simp only [extractRow] at hrow
  split at hrow
  · exact Option.noConfusion hrow
  split at hrow
  · exact Option.noConfusion hrow
  split at hrow
  · exact Option.noConfusion hrow
  split at hrow
  · exact Option.noConfusion hrow
  injection hrow with hrec
  subst hrec
  rfl

/-- C7 (witness): the invariant on the concrete record extracted from a
missing-pilled page row. -/
theorem c7_is_missing_invariant_witness :
    missingRecord ∈ extractAssignments noDateLookup someToday [pageRowMissing] ∧
    missingRecord.isMissing =
      decide (missingRecord.status = AssignmentStatus.missing) :=
  ⟨by decide,
    c7_is_missing_invariant noDateLookup someToday [pageRowMissing]
      missingRecord (by decide)⟩

/-- C9 (counterexample): a score cell with an empty grade span and a
`"/ 10"` companion span parses to an absent score with a present max —
the parser does not always return "both components or neither". -/
theorem c9_counterexample :
    parseScore (some emptyGradeCell) = (none, some 10) ∧
    (parseScore (some emptyGradeCell)).1 = none ∧
    (parseScore (some emptyGradeCell)).2 ≠ none := by
  have h : parseScore (some emptyGradeCell) = (none, some 10) := by
    with_unfolding_all rfl
  refine ⟨h, by rw [h], by rw [h]; simp⟩

/-- C9 (amended): the score parser never returns an earned score with an
absent max score (though an absent score with a present max can occur,
as when the grade span is empty); and a cell whose grade span holds a
valid number but which has no `/max` companion span yields
`(absent, absent)`, discarding the numeric grade. -/
theorem c9_never_score_without_max :
    (∀ cell : Option ScoreCellSig,
        (parseScore cell).2 = none → (parseScore cell).1 = none) ∧
    (∀ c : ScoreCellSig, c.slashSpanText = none →
        parseScore (some c) = (none, none)) := by
  constructor
  · intro cell h
    cases cell with
    | none => rfl
    | some c =>
      cases hg : c.gradeSpanText with
      | none => simp [parseScore, hg]
      | some g =>
        by_cases hex : pyStrip g = "EX"
        · simp [parseScore, hg, hex]
        · by_cases hempty : pyStrip g = ""
          · cases hsl : c.slashSpanText with
            | none => simp [parseScore, hg, hex, hempty, hsl]
            | some m =>
              cases hf : pyFloat (String.mk (pyStripCharsList ['/', ' '] m.data)) with
              | none => simp [parseScore, hg, hex, hempty, hsl, hf]
              | some mx =>
                exfalso
                simp [parseScore, hg, hex, hempty, hsl, hf] at h
          · cases hpf : pyFloat (pyStrip g) with
            | none => simp [parseScore, hg, hex, hempty, hpf]
            | some q =>
              cases hsl : c.slashSpanText with
              | none => simp [parseScore, hg, hex, hempty, hpf, hsl]
              | some m =>
                cases hf : pyFloat (String.mk (pyStripCharsList ['/', ' '] m.data)) with
                | none => simp [parseScore, hg, hex, hempty, hpf, hsl, hf]
                | some mx =>
                  exfalso
                  simp [parseScore, hg, hex, hempty, hpf, hsl, hf] at h
  · intro c hsl
    cases hg : c.gradeSpanText with
    | none => simp [parseScore, hg]
    | some g =>
      by_cases hex : pyStrip g = "EX"
      · simp [parseScore, hg, hex]
      · by_cases hempty : pyStrip g = ""
        · simp [parseScore, hg, hex, hempty, hsl]
        · cases hpf : pyFloat (pyStrip g) with
          | none => simp [parseScore, hg, hex, hempty, hpf]
          | some q => simp [parseScore, hg, hex, hempty, hpf, hsl]

/-- C9 (witness): the amended statement at concrete cells — a lone
numeric grade without a companion span is discarded and its pair is
fully absent. -/
theorem c9_never_score_without_max_witness :
    ((parseScore (some lonelyGradeCell)).2 = none ∧
      (parseScore (some lonelyGradeCell)).1 = none) ∧
    (lonelyGradeCell.slashSpanText = none ∧
      parseScore (some lonelyGradeCell) = (none, none)) := by
  have h2 : (parseScore (some lonelyGradeCell)).2 = none := by
    rw [c9_never_score_without_max.2 lonelyGradeCell rfl]
  exact ⟨⟨h2, c9_never_score_without_max.1 (some lonelyGradeCell) h2⟩,
    ⟨rfl, c9_never_score_without_max.2 lonelyGradeCell rfl⟩⟩

/-- C10: the overall course grade comes exclusively from the ENV blob:
when the blob is absent, or its `assignment_groups` or `submissions`
list is empty, extraction reports `has_course_grade = false` with absent
percentage and letter grade, whatever HTML-derived breakdown or weight
data the page yields. -/
theorem c10_env_only_overall_grade :
    ∀ (β : Type) (env : Option EnvData) (breakdown : List β)
      (weights : List (String × ℚ)),
      (env = none ∨ ∃ e, env = some e ∧
        (e.assignmentGroups = [] ∨ e.submissions = [])) →
      extractOverallGrade env = none ∧
      (extractGradeData env breakdown weights).hasCourseGrade = false ∧
      (extractGradeData env breakdown weights).overallGrade = none ∧
      (extractGradeData env breakdown weights).overallLetterGrade = none ∧
      (extractGradeData env breakdown weights).courseGrade = none ∧
      (extractGradeData env breakdown weights).courseLetterGrade = none := by
  intro β env breakdown weights hcase
  have hog : extractOverallGrade env = none := by
    rcases hcase with rfl | ⟨e, rfl, hcase⟩
    · rfl
    · unfold extractOverallGrade
      rcases hcase with h | h
      · simp [h]
      · by_cases h1 : e.assignmentGroups = [] <;> simp [h1, h]
  refine ⟨hog, ?_, ?_, ?_, ?_, ?_⟩ <;>
    · simp only [extractGradeData, hog]
      split <;> split <;> rfl

/-- C10 (witness): a page with no parsable ENV blob but with nonempty
HTML-derived breakdown and weight data still reports no course grade. -/
theorem c10_env_only_overall_grade_witness :
    extractOverallGrade (none : Option EnvData) = none ∧
    (extractGradeData (none : Option EnvData) [42] [("HW", 40)]).hasCourseGrade =
      false :=
  ⟨(c10_env_only_overall_grade ℕ none [42] [("HW", 40)] (Or.inl rfl)).1,
    (c10_env_only_overall_grade ℕ none [42] [("HW", 40)] (Or.inl rfl)).2.1⟩
